import Mathlib

/-!
Verification of the Codeforces sync/aggregation pipeline of the
Student Progress Management repository.

The definitions below are shallow embeddings of the JavaScript sources:

* `src/server/src/services/codeforcesService.js` — the API client
  (`fetchUserInfo`, `makeApiRequest`), the transformer (`processSubmissions`),
  the aggregator (`calculateStatistics`, `getStatsForPeriod`), the sync-time
  inactivity detector (`isStudentInactive`) and the per-student sync update
  (`syncStudentCodeforcesData`).
* `src/unnamed/part_017` — the inactivity-check job and its own
  `isStudentInactive` detector.
* `src/server/src/models/CronJob.js` — the scheduled-job document, its
  pre-save history truncation and `updateAfterRun`.
* `src/server/src/jobs/dataSync.js` — the batch sync orchestrator
  (`syncCodeforcesData`).

Timestamps are modelled as integer milliseconds since the epoch (the value
JavaScript `Date` arithmetic operates on).  JavaScript numbers used in the
relevant computations here are integers or exact small rationals, so `Int`
and `ℚ` are faithful models.  `Math.floor` on an integer quotient is
modelled with `Int.fdiv`.  JavaScript `Map` objects are modelled as
insertion-ordered association lists.
-/

/-- Milliseconds in one day (`1000 * 60 * 60 * 24`), the divisor used by the
inactivity computations. -/
def dayMs : Int := 86400000

/-- A normalized submission record, as produced by `processSubmissions` in
`codeforcesService.js` (lines 244-258) and consumed by `calculateStatistics`
and the inactivity detectors.  `submissionTime` is a timestamp in
milliseconds; `problemRating` is `none` when the problem has no rating
(JavaScript `null`). -/
structure Submission where
  submissionId : Int
  problemId : String
  problemName : String
  contestId : Option Int
  problemRating : Option Int
  verdict : String
  language : String
  submissionTime : Int
  tags : List String
deriving DecidableEq, Repr

/-- Truthiness of the JavaScript number-or-null `problemRating` field:
`null` and `0` are falsy, every other number is truthy. -/
def ratingTruthy : Option Int → Bool
  | none => false
  | some v => v != 0

/-- The hardest-problem record tracked by `calculateStatistics`. -/
structure MostDifficultProblem where
  problemId : String
  problemName : String
  rating : Int
  solvedOn : Int
deriving DecidableEq, Repr

/-- Per-window statistics returned by `getStatsForPeriod`. -/
structure PeriodStats where
  solved : Nat
  averagePerDay : ℚ
deriving DecidableEq, Repr

/-- The statistics block returned by `calculateStatistics`.  The
`solvedByRating` JavaScript `Map` is modelled as an insertion-ordered
association list from bucket label to count. -/
structure Statistics where
  totalSolved : Nat
  solvedByRating : List (String × Nat)
  mostDifficultProblem : Option MostDifficultProblem
  averageRating : ℚ
  last7Days : PeriodStats
  last30Days : PeriodStats
  last90Days : PeriodStats
deriving DecidableEq, Repr

/-- JavaScript `Map.has` on an insertion-ordered association list. -/
def mapHas {α : Type} (m : List (String × α)) (k : String) : Bool :=
  m.any (fun p => p.1 == k)

/-- JavaScript `map.get(k) || 0` on the counts map: missing keys give 0. -/
def mapGetD (m : List (String × Nat)) (k : String) : Nat :=
  match m.find? (fun p => p.1 == k) with
  | some p => p.2
  | none => 0

/-- JavaScript `Map.set`: overwrites the value in place when the key is
present (keeping its insertion position), otherwise appends the binding. -/
def mapSet (m : List (String × Nat)) (k : String) (v : Nat) : List (String × Nat) :=
  if mapHas m k then m.map (fun p => if p.1 == k then (k, v) else p)
  else m ++ [(k, v)]

/-- Loop state of the `acceptedSubmissions.forEach` loop inside
`calculateStatistics`: the `problemRatings` map, the `solvedByRating` map,
the current `mostDifficultProblem` and the current `highestRating`. -/
structure StatsAcc where
  problemRatings : List (String × Option Int)
  solvedByRating : List (String × Nat)
  mostDifficultProblem : Option MostDifficultProblem
  highestRating : Int
deriving DecidableEq, Repr

/-- One iteration of the `forEach` loop over accepted submissions in
`calculateStatistics` (codeforcesService.js lines 302-332): each problem id
is counted once, rated problems are bucketed into 100-point ranges and the
strictly-highest-rated first-seen problem becomes the most difficult one. -/
def processAccepted (acc : StatsAcc) (submission : Submission) : StatsAcc :=
  if mapHas acc.problemRatings submission.problemId then acc
  else
    let acc1 := { acc with
      problemRatings := acc.problemRatings ++ [(submission.problemId, submission.problemRating)] }
    if ratingTruthy submission.problemRating then
      let rating := submission.problemRating.getD 0
      let lowerBound := rating.fdiv 100 * 100
      let ratingBucket := toString lowerBound ++ "-" ++ toString (lowerBound + 100)
      let currentCount := mapGetD acc1.solvedByRating ratingBucket
      let acc2 := { acc1 with
        solvedByRating := mapSet acc1.solvedByRating ratingBucket (currentCount + 1) }
      if rating > acc2.highestRating then
        { acc2 with
          highestRating := rating
          mostDifficultProblem := some
            ⟨submission.problemId, submission.problemName, rating,
             submission.submissionTime⟩ }
      else acc2
    else acc1

/-- Embedding of `getStatsForPeriod` (codeforcesService.js lines 371-392):
count the distinct problem ids among the submissions whose timestamp falls
in the trailing window of `days` days ending at `endDate`, and divide by the
window length. -/
def getStatsForPeriod (submissions : List Submission) (days : Nat) (endDate : Int) : PeriodStats :=
  let startDate := endDate - (days : Int) * dayMs
  let periodSubmissions := submissions.filter
    (fun s => decide (startDate ≤ s.submissionTime) && decide (s.submissionTime ≤ endDate))
  let solved := ((periodSubmissions.map (fun s => s.problemId)).dedup).length
  { solved := solved, averagePerDay := (solved : ℚ) / (days : ℚ) }

/-- Embedding of `calculateStatistics` (codeforcesService.js lines 285-362).
`now` is the clock value read by `new Date()` inside the function, in
milliseconds.  The `uniqueProblemIds` JavaScript `Set` only contributes its
size, so it is modelled by `List.dedup`. -/
def calculateStatistics (submissions : List Submission) (now : Int) : Statistics :=
  let acceptedSubmissions := submissions.filter (fun s => s.verdict == "OK")
  let uniqueProblemIds := ((acceptedSubmissions.map (fun s => s.problemId)).dedup)
  let acc := acceptedSubmissions.foldl processAccepted ⟨[], [], none, 0⟩
  let totals := acc.problemRatings.foldl
    (fun (t : Int × Nat) p => if ratingTruthy p.2 then (t.1 + p.2.getD 0, t.2 + 1) else t)
    (0, 0)
  let averageRating : ℚ := if totals.2 > 0 then (totals.1 : ℚ) / (totals.2 : ℚ) else 0
  { totalSolved := uniqueProblemIds.length
    solvedByRating := acc.solvedByRating
    mostDifficultProblem := acc.mostDifficultProblem
    averageRating := averageRating
    last7Days := getStatsForPeriod acceptedSubmissions 7 now
    last30Days := getStatsForPeriod acceptedSubmissions 30 now
    last90Days := getStatsForPeriod acceptedSubmissions 90 now }

/-- Latest submission timestamp, `Math.max(...submissionDates)`.  Callers
only use it on nonempty lists (the empty case is guarded first). -/
def lastSubmissionMs (submissions : List Submission) : Int :=
  match submissions with
  | [] => 0
  | s :: rest => rest.foldl (fun m x => max m x.submissionTime) s.submissionTime

/-- Embedding of `isStudentInactive` from `codeforcesService.js`
(lines 400-416), the detector used during a sync: the floored number of
whole days since the latest submission is compared with the threshold. -/
def isStudentInactiveSvc (submissions : List Submission) (days : Nat) (now : Int) : Bool :=
  if submissions.isEmpty then true
  else
    let daysSinceLastSubmission := (now - lastSubmissionMs submissions).fdiv dayMs
    decide ((days : Int) ≤ daysSinceLastSubmission)

/-- Embedding of `isStudentInactive` from the inactivity-check job
(`src/unnamed/part_017`, lines 102-114): the latest submission timestamp is
compared strictly against a precomputed threshold date
(`subDays(new Date(), thresholdDays)`). -/
def isStudentInactiveJob (submissions : List Submission) (thresholdDate : Int) : Bool :=
  if submissions.isEmpty then true
  else decide (lastSubmissionMs submissions < thresholdDate)

/-- A JavaScript value as it appears in the raw and normalized submission
records handled by `processSubmissions`: `undef` is `undefined` (also the
value read from an absent field), `jnull` is `null`, `date none` is an
Invalid Date (millisecond value `NaN`). -/
inductive JsVal where
  | undef
  | jnull
  | num (n : Int)
  | str (s : String)
  | date (ms : Option Int)
  | strList (xs : List String)
deriving DecidableEq, Repr

/-- JavaScript truthiness for the values above: `undefined` and `null` are
falsy, numbers are truthy unless zero, strings unless empty; `Date` objects
and arrays are objects and hence always truthy. -/
def JsVal.truthy : JsVal → Bool
  | .undef => false
  | .jnull => false
  | .num n => n != 0
  | .str s => s != ""
  | .date _ => true
  | .strList _ => true

/-- JavaScript `a || b`. -/
def jsOr (a b : JsVal) : JsVal := if a.truthy then a else b

/-- Stringification of a value inside a template literal.  The only
interpolation site is `problemId`, which interpolates `problem.contestId`
and `problem.index` (numbers or strings); the remaining cases are rendered
in the obvious way and are not reached from the sources modelled here. -/
def JsVal.interp : JsVal → String
  | .undef => "undefined"
  | .jnull => "null"
  | .num n => toString n
  | .str s => s
  | .date _ => "Date"
  | .strList xs => String.intercalate "," xs

/-- JavaScript `new Date(creationTimeSeconds * 1000)`: numbers (and dates,
via their millisecond value) give a valid date; `null` coerces to `0`;
`undefined` and the remaining cases coerce to `NaN` and give an Invalid
Date.  (Numeric-string parsing is not modelled; no string reaches this call
site in the sources.) -/
def jsNewDateOfSecondsTimes1000 : JsVal → JsVal
  | .num n => .date (some (n * 1000))
  | .jnull => .date (some 0)
  | .date (some ms) => .date (some (ms * 1000))
  | _ => .date none

/-- The nested `problem` object of a raw Codeforces submission. -/
structure JsProblem where
  contestId : JsVal
  index : JsVal
  name : JsVal
  rating : JsVal
  tags : JsVal
deriving DecidableEq, Repr

/-- A submission object as a JavaScript record: it may carry the raw API
fields (`id`, `problem`, `contestId`, `verdict`, `programmingLanguage`,
`creationTimeSeconds`), the normalized fields produced by
`processSubmissions`, or any mixture.  A field that is absent on the actual
object reads as `undefined`, which is the default here (`problem` is an
object-valued field, so its absence is `none`). -/
structure JsSubmission where
  id : JsVal := .undef
  problem : Option JsProblem := none
  contestId : JsVal := .undef
  verdict : JsVal := .undef
  programmingLanguage : JsVal := .undef
  creationTimeSeconds : JsVal := .undef
  submissionId : JsVal := .undef
  problemId : JsVal := .undef
  problemName : JsVal := .undef
  problemRating : JsVal := .undef
  language : JsVal := .undef
  submissionTime : JsVal := .undef
  tags : JsVal := .undef
deriving DecidableEq, Repr

/-- The callback of `rawSubmissions.map` in `processSubmissions`
(codeforcesService.js lines 245-257).  Reading `.contestId` of an absent
`problem` field throws a `TypeError`, modelled as `Except.error`; the
result object carries only the nine normalized fields, so in particular its
`problem` field is absent. -/
def processSubmission (submission : JsSubmission) : Except String JsSubmission :=
  match submission.problem with
  | none => .error "TypeError: cannot read contestId of undefined"
  | some problem => .ok
    { submissionId := submission.id
      problemId := .str (problem.contestId.interp ++ problem.index.interp)
      problemName := problem.name
      contestId := submission.contestId
      problemRating := jsOr problem.rating .jnull
      verdict := submission.verdict
      language := submission.programmingLanguage
      submissionTime := jsNewDateOfSecondsTimes1000 submission.creationTimeSeconds
      tags := jsOr problem.tags (.strList []) }

/-- Embedding of `processSubmissions` (codeforcesService.js lines 244-258):
`Array.map` applies the callback left to right and a thrown `TypeError`
propagates out of the whole call. -/
def processSubmissions : List JsSubmission → Except String (List JsSubmission)
  | [] => .ok []
  | x :: xs =>
    match processSubmission x with
    | .error e => .error e
    | .ok y =>
      match processSubmissions xs with
      | .error e => .error e
      | .ok ys => .ok (y :: ys)

/-- The `inactivityStatus` subdocument of a Student: the inactive flag and
the since-timestamp (milliseconds, `none` for JavaScript `null`). -/
structure InactivityStatus where
  isInactive : Bool
  inactiveSince : Option Int
deriving DecidableEq, Repr

/-- The `inactivityStatus` defaults of the Student schema (the schema is the
document concatenated after the separator in
`src/server/src/models/EmailLog.js`, lines 180-189): a fresh Student starts
with `isInactive: false` and `inactiveSince: null`. -/
def initialInactivityStatus : InactivityStatus := ⟨false, none⟩

/-- The inactivity-flag update of `syncStudentCodeforcesData`
(codeforcesService.js lines 181-187): on a transition to inactive the
since-timestamp is set to the detection time, on a transition back to
active it is cleared to `null`, otherwise the status is untouched. -/
def applyInactivity (st : InactivityStatus) (isInactive : Bool) (now : Int) :
    InactivityStatus :=
  if isInactive && !st.isInactive then ⟨true, some now⟩
  else if !isInactive && st.isInactive then ⟨false, none⟩
  else st

/-- The inactivity-flag update of `checkStudentInactivity`
(`src/unnamed/part_017` lines 48-73): the student document is written only
when the detected flag differs from the stored one. -/
def checkApplyInactivity (st : InactivityStatus) (isInactive : Bool) (now : Int) :
    InactivityStatus :=
  let statusChanged := isInactive != st.isInactive
  if statusChanged then
    if isInactive then ⟨true, some now⟩ else ⟨false, none⟩
  else st

/-- The student-state effect of one `syncStudentCodeforcesData` call
(codeforcesService.js lines 172-190): the flag is recomputed from the
freshly fetched submissions with the hard-coded 7-day threshold (line 179)
and applied. -/
def syncUpdateInactivity (st : InactivityStatus) (submissions : List Submission)
    (now : Int) : InactivityStatus :=
  applyInactivity st (isStudentInactiveSvc submissions 7 now) now

/-- The student-state effect of one `checkStudentInactivity` iteration
(`src/unnamed/part_017` lines 33-73): the threshold date is
`subDays(new Date(), thresholdDays)`. -/
def checkUpdateInactivity (st : InactivityStatus) (submissions : List Submission)
    (thresholdDays : Nat) (now : Int) : InactivityStatus :=
  checkApplyInactivity st
    (isStudentInactiveJob submissions (now - (thresholdDays : Int) * dayMs)) now

/-- Student inactivity states reachable from the initial state via
per-student sync updates and inactivity-check updates. -/
inductive ReachableStatus : InactivityStatus → Prop where
  | init : ReachableStatus initialInactivityStatus
  | sync {st : InactivityStatus} (h : ReachableStatus st)
      (submissions : List Submission) (now : Int) :
      ReachableStatus (syncUpdateInactivity st submissions now)
  | check {st : InactivityStatus} (h : ReachableStatus st)
      (submissions : List Submission) (thresholdDays : Nat) (now : Int) :
      ReachableStatus (checkUpdateInactivity st submissions thresholdDays now)

/-- One entry of the CronJob run history (CronJob.js lines 85-98). -/
structure HistoryEntry where
  runAt : Int
  success : Bool
  message : Option String
  error : Option String
  processedCount : Int
  duration : Int
deriving DecidableEq, Repr

/-- The `lastStatus` subdocument of a CronJob (CronJob.js lines 66-83). -/
structure LastStatus where
  success : Option Bool
  message : Option String
  error : Option String
  processedCount : Int
deriving DecidableEq, Repr

/-- The execution-tracking part of a CronJob document (CronJob.js
lines 57-98). -/
structure CronJobDoc where
  lastRunAt : Option Int
  lastStatus : LastStatus
  history : List HistoryEntry
deriving DecidableEq, Repr

/-- The pre-save hook of the CronJob schema (CronJob.js lines 104-109):
`history.slice(-10)` keeps only the latest 10 entries when more than 10 are
present. -/
def preSaveTruncate (history : List HistoryEntry) : List HistoryEntry :=
  if history.length > 10 then history.drop (history.length - 10) else history

/-- Saving a CronJob document runs the pre-save hook on its history. -/
def saveCronJob (job : CronJobDoc) : CronJobDoc :=
  { job with history := preSaveTruncate job.history }

/-- Embedding of `updateAfterRun` (CronJob.js lines 112-139): set the
last-run fields, push one history entry and save (which truncates the
history). -/
def updateAfterRun (job : CronJobDoc) (now : Int) (success : Bool)
    (message error : Option String) (processedCount duration : Int) : CronJobDoc :=
  saveCronJob
    { job with
      lastRunAt := some now
      lastStatus := ⟨some success, message, error, processedCount⟩
      history := job.history ++
        [⟨now, success, message, error, processedCount, duration⟩] }

/-- A recorded run, as passed to `updateAfterRun`: timestamp, success flag,
message, error, processed count and duration. -/
structure RunArgs where
  now : Int
  success : Bool
  message : Option String
  error : Option String
  processedCount : Int
  duration : Int
deriving DecidableEq, Repr

/-- A whole sequence of recorded runs applied through `updateAfterRun`. -/
def recordRuns (job : CronJobDoc) (runs : List RunArgs) : CronJobDoc :=
  runs.foldl
    (fun j r => updateAfterRun j r.now r.success r.message r.error r.processedCount r.duration)
    job

/-- Outcome of one HTTP attempt against the Codeforces API: a parsed JSON
body on HTTP success (status field and result array, user-info objects
abstracted to strings), or an axios error — `httpError (some c)` is a
non-2xx response whose body carries the comment `c`, `networkError` is an
error without a response. -/
inductive ApiAttempt where
  | success (status : String) (result : List String)
  | httpError (comment : Option String)
  | networkError
deriving DecidableEq, Repr

/-- MAX_RETRIES (codeforcesService.js line 15). -/
def MAX_RETRIES : Nat := 3

/-- Embedding of `makeApiRequest` (codeforcesService.js lines 205-237) for a
fixed endpoint: `upstream i` is the outcome of the HTTP attempt made with
`retries = i`.  Every failed attempt is retried while
`retries < MAX_RETRIES`, regardless of the kind of failure; the check
`retries < MAX_RETRIES` is carried as the remaining retry budget
`MAX_RETRIES - retries` so that the recursion is structural.  Returns the
total number of HTTP attempts made together with the result. -/
def makeApiRequestAux (upstream : Nat → ApiAttempt) (retries budget : Nat) :
    Nat × Except ApiAttempt (String × List String) :=
  match upstream retries with
  | .success status result => (retries + 1, .ok (status, result))
  | .httpError comment =>
    match budget with
    | budget' + 1 => makeApiRequestAux upstream (retries + 1) budget'
    | 0 => (retries + 1, .error (.httpError comment))
  | .networkError =>
    match budget with
    | budget' + 1 => makeApiRequestAux upstream (retries + 1) budget'
    | 0 => (retries + 1, .error .networkError)

/-- `makeApiRequest(endpoint)` starts with `retries = 0`, so the retry
budget is the full `MAX_RETRIES`. -/
def makeApiRequest (upstream : Nat → ApiAttempt) :
    Nat × Except ApiAttempt (String × List String) :=
  makeApiRequestAux upstream 0 MAX_RETRIES

/-- The hard-coded comment string `fetchUserInfo` compares against
(codeforcesService.js line 41). -/
def notFoundLiteral : String := "handles: User with handle handles not found"

/-- The comment the Codeforces API actually attaches when `handle` does not
exist. -/
def notFoundComment (handle : String) : String :=
  "handles: User with handle " ++ handle ++ " not found"

/-- Embedding of `fetchUserInfo` (codeforcesService.js lines 28-47).  On an
HTTP-success body it returns the first result when the status is `OK` and
the result array is nonempty, and `null` otherwise.  On a caught error it
returns `null` only when the response comment equals the hard-coded
literal, and re-throws otherwise.  The first component is the number of
HTTP attempts made. -/
def fetchUserInfo (upstream : Nat → ApiAttempt) :
    Nat × Except ApiAttempt (Option String) :=
  let r := makeApiRequest upstream
  match r.2 with
  | .ok (status, result) =>
    if status == "OK" && !result.isEmpty then (r.1, .ok (some result.headI))
    else (r.1, .ok none)
  | .error (.httpError (some comment)) =>
    if comment == notFoundLiteral then (r.1, .ok none)
    else (r.1, .error (.httpError (some comment)))
  | .error e => (r.1, .error e)

/-- An upstream that reports `handle` as not found on every attempt (the
Codeforces API answers failed calls with HTTP 400 and a comment field,
which axios raises as an error carrying that comment). -/
def notFoundUpstream (handle : String) : Nat → ApiAttempt :=
  fun _ => .httpError (some (notFoundComment handle))

/-- `Math.ceil(totalCount / batchSize)` (dataSync.js line 165) for natural
numbers, with a positive batch size. -/
def ceilBatches (totalCount batchSize : Nat) : Nat :=
  (totalCount + batchSize - 1) / batchSize

/-- `students.slice(startIdx, endIdx)` with `startIdx = i * batchSize` and
`endIdx = min((i + 1) * batchSize, totalCount)` (dataSync.js
lines 171-173). -/
def sliceBatch {α : Type} (students : List α) (batchSize i : Nat) : List α :=
  (students.drop (i * batchSize)).take
    (min ((i + 1) * batchSize) students.length - i * batchSize)

/-- The observable result of `syncCodeforcesData`: the counters it returns
and logs, together with the per-student settled outcomes of all batches in
processing order. -/
structure SyncRunResult (α : Type) where
  batchCount : Nat
  processedCount : Nat
  successCount : Nat
  failedCount : Nat
  results : List (α × Bool)
deriving Repr

/-- Embedding of `syncCodeforcesData` (dataSync.js lines 149-210): with no
students the run returns zero counters; otherwise the students are
partitioned into `Math.ceil(N / batchSize)` index-based slices, each batch
is settled with `Promise.allSettled` (the per-student sync abstracted by
`outcome`, `true` for fulfilled), one settled outcome per student is
counted, and `processedCount` accumulates the batch lengths. -/
def syncCodeforcesData {α : Type} (students : List α) (batchSize : Nat)
    (outcome : α → Bool) : SyncRunResult α :=
  if students.length = 0 then ⟨0, 0, 0, 0, []⟩
  else
    let batchCount := ceilBatches students.length batchSize
    let batchResults := (List.range batchCount).map
      (fun i => (sliceBatch students batchSize i).map (fun s => (s, outcome s)))
    let results := batchResults.flatten
    { batchCount := batchCount
      processedCount := (batchResults.map List.length).sum
      successCount := (results.filter (fun r => r.2)).length
      failedCount := (results.filter (fun r => !r.2)).length
      results := results }

/-- The `config` subdocument of a CronJob (CronJob.js lines 36-56). -/
structure CronJobConfig where
  batchSize : Nat
  inactivityThresholdDays : Nat
  reminderTemplate : String
  reminderSubject : String
deriving DecidableEq, Repr

/-- The inactivity statuses written by one full sync run launched by the
`codeforcesSync` cron task (dataSync.js lines 60-84): the task passes only
`job.config.batchSize` into `syncCodeforcesData`, and every per-student
update goes through `syncStudentCodeforcesData`, which hard-codes the 7-day
threshold.  Each student is paired with the submissions fetched for them. -/
def syncRunInactivity (config : CronJobConfig)
    (students : List (InactivityStatus × List Submission)) (now : Int) :
    List InactivityStatus :=
  ((List.range (ceilBatches students.length config.batchSize)).map
    (fun i => (sliceBatch students config.batchSize i).map
      (fun p => syncUpdateInactivity p.1 p.2 now))).flatten

/-- A normalized submission with the given problem id, rating and
timestamp, used for concrete instances; the remaining fields are fixed
innocuous values. -/
def mkSub (pid : String) (rating : Option Int) (t : Int) : Submission :=
  { submissionId := 0, problemId := pid, problemName := pid, contestId := none,
    problemRating := rating, verdict := "OK", language := "cpp",
    submissionTime := t, tags := [] }

/-- A concrete raw submission as delivered by the Codeforces API. -/
def rawSubExample : JsSubmission :=
  { id := .num 1,
    problem := some ⟨.num 1000, .str "A", .str "Problem A", .num 800, .strList ["math"]⟩,
    contestId := .num 1000, verdict := .str "OK", programmingLanguage := .str "cpp",
    creationTimeSeconds := .num 100 }

/-- The normalized record `processSubmissions` produces for
`rawSubExample`. -/
def normSubExample : JsSubmission :=
  { submissionId := .num 1, problemId := .str "1000A", problemName := .str "Problem A",
    contestId := .num 1000, problemRating := .num 800, verdict := .str "OK",
    language := .str "cpp", submissionTime := .date (some 100000),
    tags := .strList ["math"] }

/-- Ten history entries, a CronJob history at the documented bound. -/
def tenEntries : List HistoryEntry := List.replicate 10 ⟨0, true, none, none, 0, 0⟩

deriving instance DecidableEq for Except

/-! ## Theorems -/

/-- Helper: the record produced by a successful `processSubmission` call has
no `problem` field. -/
theorem problem_none_of_processSubmission_ok {x y : JsSubmission}
    (h : processSubmission x = .ok y) : y.problem = none := by
  unfold processSubmission at h
  cases hx : x.problem with
  | none => rw [hx] at h; exact absurd h (by simp)
  | some p =>
    rw [hx] at h
    simp only [Except.ok.injEq] at h
    rw [← h]

/-- C1 (counterexample): at the exact boundary — latest submission exactly
`T` days old — the sync-time detector `isStudentInactive` of
`codeforcesService.js` reports inactive although the latest submission is
not older than `now - T` days, refuting the stated characterization. -/
theorem svcDetector_boundary_counterexample :
    ¬ ((isStudentInactiveSvc [mkSub "1A" (some 800) 0] 7 (7 * dayMs) = true) ↔
       ([mkSub "1A" (some 800) 0] = [] ∨
        lastSubmissionMs [mkSub "1A" (some 800) 0] < 7 * dayMs - 7 * dayMs)) := by
  decide

/-- C1 (amended): for every threshold `days`, submission list and call time,
the sync-time detector returns true iff the list is empty or the latest
submission is at least `days` days old (`now - latest ≥ days` days, the
floored-day comparison of the source), while the inactivity-check job's
detector returns true iff the list is empty or the latest submission is
strictly older than `now - days` days; the two disagree exactly at the
boundary. -/
theorem inactivityDetectors_characterization (submissions : List Submission)
    (days : Nat) (now : Int) :
    (isStudentInactiveSvc submissions days now = true ↔
      (submissions = [] ∨ (days : Int) * dayMs ≤ now - lastSubmissionMs submissions)) ∧
    (isStudentInactiveJob submissions (now - (days : Int) * dayMs) = true ↔
      (submissions = [] ∨ lastSubmissionMs submissions < now - (days : Int) * dayMs)) := by
  constructor
  · cases submissions with
    | nil => simp [isStudentInactiveSvc]
    | cons s rest =>
      simp only [isStudentInactiveSvc, List.isEmpty_cons, Bool.false_eq_true, if_false,
        decide_eq_true_eq, List.cons_ne_nil, false_or]
      rw [Int.fdiv_eq_ediv _ (by decide)]
      exact Int.le_ediv_iff_mul_le (by decide)
  · cases submissions with
    | nil => simp [isStudentInactiveJob]
    | cons s rest =>
      simp [isStudentInactiveJob]

/-- C2 (code bug, evaluated): when the upstream reports the handle
`tourist` as not found on every attempt, `fetchUserInfo` makes 4 HTTP
attempts (the not-found failure is retried 3 times like any other failure)
and then re-raises the error instead of returning null, because the
comment is compared against a hard-coded literal that contains the word
`handles` in place of the actual handle; only the handle literally named
`handles` ever matches it (and even then after 4 attempts). -/
theorem fetchUserInfo_notFound_retries_then_raises :
    fetchUserInfo (notFoundUpstream "tourist") =
      (4, .error (.httpError (some (notFoundComment "tourist")))) ∧
    fetchUserInfo (notFoundUpstream "handles") = (4, .ok none) ∧
    notFoundComment "handles" = notFoundLiteral ∧
    ¬ notFoundComment "tourist" = notFoundLiteral := by
  decide

/-- C3 (counterexample): normalizing a concrete raw submission succeeds,
but normalizing the normalized output again throws a `TypeError` (the
normalized shape has no `problem` field), so re-normalization is not a
no-op. -/
theorem processSubmissions_renormalize_counterexample :
    processSubmissions [rawSubExample] = .ok [normSubExample] ∧
    processSubmissions [normSubExample]
      = .error "TypeError: cannot read contestId of undefined" ∧
    ¬ (processSubmissions [rawSubExample]).bind processSubmissions
        = processSubmissions [rawSubExample] := by
  decide

/-- C3 (amended): re-normalization is a no-op only on the empty list; for
every nonempty raw list whose normalization succeeds, running
`processSubmissions` again on the normalized output throws a `TypeError`,
because normalized records carry no `problem` field. -/
theorem processSubmissions_renormalize_behavior
    (raw normalized : List JsSubmission)
    (h : processSubmissions raw = .ok normalized) :
    (raw = [] → normalized = [] ∧ processSubmissions normalized = .ok []) ∧
    (raw ≠ [] → processSubmissions normalized
        = .error "TypeError: cannot read contestId of undefined") := by
  constructor
  · rintro rfl
    simp only [processSubmissions, Except.ok.injEq] at h
    subst h
    exact ⟨rfl, rfl⟩
  · intro hne
    match raw, hne with
    | x :: xs, _ =>
      simp only [processSubmissions] at h
      cases hx : processSubmission x with
      | error e => rw [hx] at h; exact absurd h (by simp)
      | ok y =>
        rw [hx] at h
        cases hxs : processSubmissions xs with
        | error e => rw [hxs] at h; exact absurd h (by simp)
        | ok ys =>
          rw [hxs] at h
          simp only [Except.ok.injEq] at h
          rw [← h]
          have hy : y.problem = none := problem_none_of_processSubmission_ok hx
          simp only [processSubmissions, processSubmission, hy]

/-- C3 (witness): the amended theorem applied to the concrete raw
submission above. -/
theorem processSubmissions_renormalize_behavior_witness :
    processSubmissions [normSubExample]
      = .error "TypeError: cannot read contestId of undefined" :=
  (processSubmissions_renormalize_behavior [rawSubExample] [normSubExample]
    (by decide)).2 (by decide)

/-- C4 (counterexample): `calculateStatistics` reads the clock, so two runs
on the same submission list at different call times differ (here in the
trailing 7-day window statistics), refuting "two runs produce identical
outputs" read over real runs. -/
theorem calculateStatistics_call_time_counterexample :
    calculateStatistics [mkSub "1A" (some 800) 0] 0
      ≠ calculateStatistics [mkSub "1A" (some 800) 0] (8 * dayMs) := by
  intro h
  exact absurd (congrArg (fun st => st.last7Days.solved) h) (by decide)

/-- C4 (amended): `calculateStatistics` is a pure function of the
submission list and the call time — two runs at the same instant agree
entirely — and every field other than the trailing-window statistics
(total solved, rating histogram, most difficult problem, average rating)
agrees even across runs at two different call times. -/
theorem calculateStatistics_deterministic_given_time :
    (∀ (submissions : List Submission) (now : Int),
      calculateStatistics submissions now = calculateStatistics submissions now) ∧
    (∀ (submissions : List Submission) (n₁ n₂ : Int),
      (calculateStatistics submissions n₁).totalSolved
          = (calculateStatistics submissions n₂).totalSolved ∧
      (calculateStatistics submissions n₁).solvedByRating
          = (calculateStatistics submissions n₂).solvedByRating ∧
      (calculateStatistics submissions n₁).mostDifficultProblem
          = (calculateStatistics submissions n₂).mostDifficultProblem ∧
      (calculateStatistics submissions n₁).averageRating
          = (calculateStatistics submissions n₂).averageRating) :=
  ⟨fun _ _ => rfl, fun _ _ _ => ⟨rfl, rfl, rfl, rfl⟩⟩

/-- C6: the total-unique-solved count computed by `calculateStatistics`
never exceeds the number of accepted submissions, which never exceeds the
total number of submissions. -/
theorem totalSolved_le_accepted_le_total (submissions : List Submission) (now : Int) :
    (calculateStatistics submissions now).totalSolved
        ≤ (submissions.filter (fun s => s.verdict == "OK")).length ∧
    (submissions.filter (fun s => s.verdict == "OK")).length ≤ submissions.length := by
  refine ⟨?_, List.length_filter_le _ _⟩
  have h : (calculateStatistics submissions now).totalSolved
      = ((submissions.filter (fun s => s.verdict == "OK")).map
          (fun s => s.problemId)).dedup.length := rfl
  rw [h]
  calc ((submissions.filter (fun s => s.verdict == "OK")).map
          (fun s => s.problemId)).dedup.length
      ≤ ((submissions.filter (fun s => s.verdict == "OK")).map
          (fun s => s.problemId)).length := (List.dedup_sublist _).length_le
    _ = (submissions.filter (fun s => s.verdict == "OK")).length :=
        List.length_map _ _

/-- Helper: the inactivity-check job's conditional write is the same state
update as the sync path's. -/
theorem checkApplyInactivity_eq (st : InactivityStatus) (b : Bool) (now : Int) :
    checkApplyInactivity st b now = applyInactivity st b now := by
  rcases st with ⟨i, since⟩
  cases b <;> cases i <;> simp [checkApplyInactivity, applyInactivity]

/-- Helper: one inactivity update preserves "since-timestamp present iff
inactive". -/
theorem applyInactivity_invariant (st : InactivityStatus) (b : Bool) (now : Int)
    (h : st.inactiveSince.isSome = st.isInactive) :
    (applyInactivity st b now).inactiveSince.isSome
      = (applyInactivity st b now).isInactive := by
  rcases st with ⟨i, since⟩
  cases b <;> cases i <;> simp_all [applyInactivity]

/-- C7: in every Student state reachable from the initial state via sync
updates and inactivity-check updates, the since-timestamp is non-null iff
the inactive flag is set; moreover the transition to inactive stamps the
detection time and the transition back to active clears the timestamp. -/
theorem inactivity_status_invariant (st : InactivityStatus)
    (h : ReachableStatus st) :
    (st.inactiveSince.isSome = true ↔ st.isInactive = true) ∧
    (∀ now : Int, st.isInactive = false →
      applyInactivity st true now = ⟨true, some now⟩) ∧
    (∀ now : Int, st.isInactive = true →
      applyInactivity st false now = ⟨false, none⟩) := by
  have inv : st.inactiveSince.isSome = st.isInactive := by
    induction h with
    | init => rfl
    | sync h submissions now ih => exact applyInactivity_invariant _ _ _ ih
    | check h submissions thresholdDays now ih =>
      unfold checkUpdateInactivity
      rw [checkApplyInactivity_eq]
      exact applyInactivity_invariant _ _ _ ih
  refine ⟨by rw [inv], ?_, ?_⟩
  · intro now hfalse
    rcases st with ⟨i, since⟩
    simp only at hfalse
    subst hfalse
    simp [applyInactivity]
  · intro now htrue
    rcases st with ⟨i, since⟩
    simp only at htrue
    subst htrue
    simp [applyInactivity]

/-- C7 (witness): the invariant and the stamping transition at the initial
state. -/
theorem inactivity_status_invariant_witness :
    (initialInactivityStatus.inactiveSince.isSome = true ↔
      initialInactivityStatus.isInactive = true) ∧
    applyInactivity initialInactivityStatus true 5 = ⟨true, some 5⟩ :=
  ⟨(inactivity_status_invariant initialInactivityStatus ReachableStatus.init).1,
   (inactivity_status_invariant initialInactivityStatus ReachableStatus.init).2.1 5 rfl⟩

/-- Helper: any single `updateAfterRun` leaves at most 10 history
entries. -/
theorem updateAfterRun_history_le (job : CronJobDoc) (now : Int)
    (success : Bool) (message error : Option String)
    (processedCount duration : Int) :
    (updateAfterRun job now success message error processedCount duration).history.length
      ≤ 10 := by
  simp only [updateAfterRun, saveCronJob, preSaveTruncate]
  split
  · simp only [List.length_drop, List.length_append, List.length_cons, List.length_nil]
    omega
  · rename_i hc
    simp only [gt_iff_lt, not_lt, List.length_append, List.length_cons,
      List.length_nil] at hc ⊢
    omega

/-- Helper: any nonempty sequence of recorded runs leaves at most 10
history entries, regardless of the starting document. -/
theorem recordRuns_history_le (runs : List RunArgs) (job : CronJobDoc)
    (h : job.history.length ≤ 10) : (recordRuns job runs).history.length ≤ 10 := by
  induction runs generalizing job with
  | nil => exact h
  | cons r rs ih =>
    simp only [recordRuns, List.foldl_cons]
    exact ih _ (updateAfterRun_history_le _ _ _ _ _ _ _)

/-- C8: a recorded run never leaves more than 10 history entries; when 10
entries are already present the oldest is evicted and the new entry
appended; and the bound holds after any nonempty sequence of recorded
runs. -/
theorem cronjob_history_bounded :
    (∀ (job : CronJobDoc) (now : Int) (success : Bool)
        (message error : Option String) (processedCount duration : Int),
      (updateAfterRun job now success message error processedCount duration).history.length
        ≤ 10) ∧
    (∀ (job : CronJobDoc) (now : Int) (success : Bool)
        (message error : Option String) (processedCount duration : Int),
      job.history.length = 10 →
      (updateAfterRun job now success message error processedCount duration).history
        = job.history.drop 1
            ++ [⟨now, success, message, error, processedCount, duration⟩]) ∧
    (∀ (runs : List RunArgs) (job : CronJobDoc), runs ≠ [] →
      (recordRuns job runs).history.length ≤ 10) := by
  refine ⟨fun job now s m e pc d => updateAfterRun_history_le job now s m e pc d,
    ?_, ?_⟩
  · intro job now s m e pc d h10
    simp only [updateAfterRun, saveCronJob, preSaveTruncate]
    rw [if_pos (by simp [h10])]
    simp only [List.length_append, h10, List.length_cons, List.length_nil]
    rw [List.drop_append_of_le_length (by omega)]
  · intro runs job hne
    match runs, hne with
    | r :: rs, _ =>
      simp only [recordRuns, List.foldl_cons]
      exact recordRuns_history_le rs _ (updateAfterRun_history_le _ _ _ _ _ _ _)

/-- C8 (witness): recording a run on a document whose history already holds
10 entries evicts the oldest entry. -/
theorem cronjob_history_bounded_witness :
    (updateAfterRun ⟨none, ⟨none, none, none, 0⟩, tenEntries⟩ 5 true none none 3 7).history
      = tenEntries.drop 1 ++ [⟨5, true, none, none, 3, 7⟩] :=
  cronjob_history_bounded.2.1 _ 5 true none none 3 7 (by decide)

/-- Helper: with a positive batch size, the index-based slice of the loop
is drop-then-take. -/
theorem sliceBatch_eq {α : Type} (l : List α) (b i : Nat) (hb : 0 < b) :
    sliceBatch l b i = (l.drop (i * b)).take b := by
  unfold sliceBatch
  have hm : (i + 1) * b = i * b + b := by ring
  rcases le_or_lt ((i + 1) * b) l.length with h | h
  · rw [min_eq_left h]
    congr 1
    omega
  · rw [min_eq_right h.le]
    rw [List.take_of_length_le (by simp [List.length_drop]),
        List.take_of_length_le (by simp only [List.length_drop]; omega)]

/-- Helper: concatenating `k` consecutive `b`-sized chunks recovers a list
of length at most `k * b`. -/
theorem flatten_chunks {α : Type} (b : Nat) :
    ∀ (k : Nat) (l : List α), l.length ≤ k * b →
      ((List.range k).map (fun i => (l.drop (i * b)).take b)).flatten = l := by
  intro k
  induction k with
  | zero =>
    intro l hl
    simp only [Nat.zero_mul, Nat.le_zero] at hl
    simp [List.eq_nil_of_length_eq_zero hl]
  | succ k ih =>
    intro l hl
    rw [List.range_succ_eq_map, List.map_cons, List.map_map, List.flatten_cons]
    have hcomp : ((fun i => (l.drop (i * b)).take b) ∘ Nat.succ)
        = (fun i => ((l.drop b).drop (i * b)).take b) := by
      funext i
      show (l.drop (Nat.succ i * b)).take b = ((l.drop b).drop (i * b)).take b
      rw [List.drop_drop]
      congr 2
      rw [Nat.succ_mul]
      omega
    rw [hcomp]
    have hlen : (l.drop b).length ≤ k * b := by
      rw [List.length_drop]
      have hsm : (k + 1) * b = k * b + b := by ring
      omega
    rw [ih (l.drop b) hlen]
    simp only [Nat.zero_mul, List.drop_zero]
    exact List.take_append_drop b l

/-- Helper: `ceil(n / b) * b` covers `n`. -/
theorem le_ceilBatches_mul (n b : Nat) (hb : 0 < b) : n ≤ ceilBatches n b * b := by
  unfold ceilBatches
  have h1 := Nat.div_add_mod (n + b - 1) b
  have h2 := Nat.mod_lt (n + b - 1) hb
  rw [Nat.mul_comm]
  omega

/-- Helper: mapping over all slices and flattening is mapping over the
whole list. -/
theorem joined_slices {α β : Type} (f : α → β) (b : Nat) (hb : 0 < b)
    (l : List α) :
    ((List.range (ceilBatches l.length b)).map
      (fun i => (sliceBatch l b i).map f)).flatten = l.map f := by
  have h1 : ∀ i, (sliceBatch l b i).map f = ((l.map f).drop (i * b)).take b := by
    intro i
    rw [sliceBatch_eq l b i hb, List.map_take, List.map_drop]
  rw [List.map_congr_left (fun i _ => h1 i)]
  apply flatten_chunks
  rw [List.length_map]
  exact le_ceilBatches_mul _ _ hb

/-- Helper: the settled outcomes of a sync run list every student exactly
once, in order, paired with that student's outcome. -/
theorem syncCodeforcesData_results {α : Type} (students : List α)
    (batchSize : Nat) (o : α → Bool) (hb : 0 < batchSize) :
    (syncCodeforcesData students batchSize o).results
      = students.map (fun t => (t, o t)) := by
  unfold syncCodeforcesData
  by_cases h : students.length = 0
  · rw [if_pos h]
    simp [List.eq_nil_of_length_eq_zero h]
  · rw [if_neg h]
    exact joined_slices (fun s => (s, o s)) batchSize hb students

/-- Helper: the batch count of a nonempty run is the ceiling count. -/
theorem syncCodeforcesData_batchCount {α : Type} (students : List α)
    (batchSize : Nat) (o : α → Bool) (hne : students ≠ []) :
    (syncCodeforcesData students batchSize o).batchCount
      = ceilBatches students.length batchSize := by
  unfold syncCodeforcesData
  rw [if_neg (fun h => hne (List.eq_nil_of_length_eq_zero h))]

/-- Helper: the processed count of a run covers every student. -/
theorem syncCodeforcesData_processedCount {α : Type} (students : List α)
    (batchSize : Nat) (o : α → Bool) (hb : 0 < batchSize) :
    (syncCodeforcesData students batchSize o).processedCount
      = students.length := by
  have hr := syncCodeforcesData_results students batchSize o hb
  have hpr : (syncCodeforcesData students batchSize o).processedCount
      = (syncCodeforcesData students batchSize o).results.length := by
    unfold syncCodeforcesData
    by_cases h : students.length = 0
    · rw [if_pos h]
      rfl
    · rw [if_neg h]
      exact (List.length_flatten _).symm
  rw [hpr, hr, List.length_map]

/-- C9: a nonempty sync run with positive batch size issues exactly
`ceil(N / B)` batches, processes all `N` students, settles every student
exactly once in order, and changing one student's sync outcome changes
neither the batch count nor any other student's recorded outcome. -/
theorem syncCodeforcesData_batching {α : Type} (students : List α)
    (batchSize : Nat) (o₁ o₂ : α → Bool) (s : α)
    (hne : students ≠ []) (hb : 0 < batchSize)
    (hagree : ∀ t, t ≠ s → o₁ t = o₂ t) :
    (syncCodeforcesData students batchSize o₁).batchCount
        = (students.length + batchSize - 1) / batchSize ∧
    (syncCodeforcesData students batchSize o₁).batchCount
        = (syncCodeforcesData students batchSize o₂).batchCount ∧
    (syncCodeforcesData students batchSize o₁).processedCount = students.length ∧
    (syncCodeforcesData students batchSize o₁).results
        = students.map (fun t => (t, o₁ t)) ∧
    (∀ (i : Nat) (x₁ x₂ : α × Bool),
      (syncCodeforcesData students batchSize o₁).results[i]? = some x₁ →
      (syncCodeforcesData students batchSize o₂).results[i]? = some x₂ →
      x₁.1 ≠ s → x₁ = x₂) := by
  refine ⟨syncCodeforcesData_batchCount students batchSize o₁ hne,
    (syncCodeforcesData_batchCount students batchSize o₁ hne).trans
      (syncCodeforcesData_batchCount students batchSize o₂ hne).symm,
    syncCodeforcesData_processedCount students batchSize o₁ hb,
    syncCodeforcesData_results students batchSize o₁ hb, ?_⟩
  intro i x₁ x₂ h1 h2 hx
  rw [syncCodeforcesData_results students batchSize o₁ hb,
    List.getElem?_map] at h1
  rw [syncCodeforcesData_results students batchSize o₂ hb,
    List.getElem?_map] at h2
  cases ht : students[i]? with
  | none => rw [ht] at h1; simp at h1
  | some t =>
    rw [ht] at h1 h2
    simp at h1 h2
    subst h1
    subst h2
    have hts : t ≠ s := hx
    rw [hagree t hts]

/-- C9 (witness): five students in batches of two, one student failing. -/
theorem syncCodeforcesData_batching_witness :
    (syncCodeforcesData [0, 1, 2, 3, 4] 2 (fun t => !(t == 1))).batchCount = 3 ∧
    (syncCodeforcesData [0, 1, 2, 3, 4] 2 (fun t => !(t == 1))).processedCount = 5 ∧
    (syncCodeforcesData [0, 1, 2, 3, 4] 2 (fun t => !(t == 1))).results
      = [(0, true), (1, false), (2, true), (3, true), (4, true)] := by
  have h := syncCodeforcesData_batching [0, 1, 2, 3, 4] 2 (fun t => !(t == 1))
    (fun _ => true) 1 (by decide) (by decide) (fun t ht => by simp [ht])
  exact ⟨h.1, h.2.2.1, (h.2.2.2.1).trans (by decide)⟩

/-- C10: two full sync runs whose job configurations agree on the batch
size but differ arbitrarily in `inactivityThresholdDays` (and the reminder
fields) write identical inactivity statuses, namely the ones computed with
the hard-coded 7-day threshold of `syncStudentCodeforcesData`. -/
theorem syncRun_ignores_inactivity_threshold_config
    (c₁ c₂ : CronJobConfig)
    (students : List (InactivityStatus × List Submission)) (now : Int)
    (hbs : c₁.batchSize = c₂.batchSize) (hb : 0 < c₁.batchSize) :
    syncRunInactivity c₁ students now = syncRunInactivity c₂ students now ∧
    syncRunInactivity c₁ students now
      = students.map
          (fun p => applyInactivity p.1 (isStudentInactiveSvc p.2 7 now) now) := by
  have h1 : syncRunInactivity c₁ students now
      = students.map (fun p => syncUpdateInactivity p.1 p.2 now) := by
    unfold syncRunInactivity
    exact joined_slices _ c₁.batchSize hb students
  have h2 : syncRunInactivity c₂ students now
      = students.map (fun p => syncUpdateInactivity p.1 p.2 now) := by
    unfold syncRunInactivity
    exact joined_slices _ c₂.batchSize (hbs ▸ hb) students
  exact ⟨h1.trans h2.symm, h1⟩

/-- C10 (witness): threshold 7 versus threshold 30, batch size 2. -/
theorem syncRun_ignores_inactivity_threshold_config_witness :
    syncRunInactivity ⟨2, 7, "default", "subject"⟩
        [(⟨false, none⟩, []), (⟨true, some 3⟩, [])] 0
      = syncRunInactivity ⟨2, 30, "default", "subject"⟩
        [(⟨false, none⟩, []), (⟨true, some 3⟩, [])] 0 :=
  (syncRun_ignores_inactivity_threshold_config ⟨2, 7, "default", "subject"⟩
    ⟨2, 30, "default", "subject"⟩ [(⟨false, none⟩, []), (⟨true, some 3⟩, [])] 0
    rfl (by decide)).1

/-- C5: the spec scenario — three accepted submissions with ratings 800,
1200, 1200 where the two 1200-rated submissions share one problem id and
the 800-rated one has another — yields 2 unique solved problems, the
1200-rated problem (first-seen occurrence) as most difficult, and average
rating (800 + 1200) / 2 = 1000. -/
theorem calculateStatistics_scenario
    (pidA pidB nameA nameB : String) (tA tB tB2 now : Int)
    (hpid : pidA ≠ pidB) :
    (calculateStatistics
        [⟨1, pidA, nameA, none, some 800, "OK", "cpp", tA, []⟩,
         ⟨2, pidB, nameB, none, some 1200, "OK", "cpp", tB, []⟩,
         ⟨3, pidB, nameB, none, some 1200, "OK", "cpp", tB2, []⟩] now).totalSolved = 2 ∧
    (calculateStatistics
        [⟨1, pidA, nameA, none, some 800, "OK", "cpp", tA, []⟩,
         ⟨2, pidB, nameB, none, some 1200, "OK", "cpp", tB, []⟩,
         ⟨3, pidB, nameB, none, some 1200, "OK", "cpp", tB2, []⟩] now).mostDifficultProblem
      = some ⟨pidB, nameB, 1200, tB⟩ ∧
    (calculateStatistics
        [⟨1, pidA, nameA, none, some 800, "OK", "cpp", tA, []⟩,
         ⟨2, pidB, nameB, none, some 1200, "OK", "cpp", tB, []⟩,
         ⟨3, pidB, nameB, none, some 1200, "OK", "cpp", tB2, []⟩] now).averageRating
      = 1000 := by
  have e1 : (pidA == pidB) = false := by simp [hpid]
  have e2 : (pidB == pidB) = true := by simp
  have hd : ([pidA, pidB, pidB] : List String).dedup = [pidA, pidB] := by
    rw [List.dedup_cons_of_not_mem (by simp [hpid]),
        List.dedup_cons_of_mem (List.mem_cons_self _ _),
        List.dedup_cons_of_not_mem (List.not_mem_nil _), List.dedup_nil]
  refine ⟨?_, ?_, ?_⟩
  · simp [calculateStatistics, hd]
  · simp [calculateStatistics, processAccepted, mapHas, ratingTruthy, e1, e2]
  · simp [calculateStatistics, processAccepted, mapHas, ratingTruthy, e1, e2]
    norm_num

/-- C5 (witness): the scenario at concrete problem ids, names and times. -/
theorem calculateStatistics_scenario_witness :
    (calculateStatistics
        [⟨1, "1000A", "Problem A", none, some 800, "OK", "cpp", 10, []⟩,
         ⟨2, "1000B", "Problem B", none, some 1200, "OK", "cpp", 20, []⟩,
         ⟨3, "1000B", "Problem B", none, some 1200, "OK", "cpp", 30, []⟩] 99).totalSolved
      = 2 ∧
    (calculateStatistics
        [⟨1, "1000A", "Problem A", none, some 800, "OK", "cpp", 10, []⟩,
         ⟨2, "1000B", "Problem B", none, some 1200, "OK", "cpp", 20, []⟩,
         ⟨3, "1000B", "Problem B", none, some 1200, "OK", "cpp", 30, []⟩] 99).mostDifficultProblem
      = some ⟨"1000B", "Problem B", 1200, 20⟩ ∧
    (calculateStatistics
        [⟨1, "1000A", "Problem A", none, some 800, "OK", "cpp", 10, []⟩,
         ⟨2, "1000B", "Problem B", none, some 1200, "OK", "cpp", 20, []⟩,
         ⟨3, "1000B", "Problem B", none, some 1200, "OK", "cpp", 30, []⟩] 99).averageRating
      = 1000 :=
  calculateStatistics_scenario "1000A" "1000B" "Problem A" "Problem B" 10 20 30 99
    (by decide)
